import Mathlib

/-!
Verification of the ClearanceOS decision pipeline: a shallow embedding of the
adjudication engine (`src/logic.py`), the guideline catalog and keyword
retrieval (`src/rag.py`), the standalone demo engine (`src/demo.py`) and the
anti-corruption layer (`src/acl.py`), together with proofs of the behavioural
properties claimed for them.  Python floats only ever hold small integral
values here (risk scores are sums of 2.0 and 3.0), so scores are modelled as
rationals; wall-clock timestamps are modelled by a monotone counter carried in
the ACL state, since only presence and ordering of timestamps matter.
-/

namespace ClearanceOS

/-! ## Data model (`src/models.py`) -/

/-- Severity of a charge (`Charge.severity`, a `Literal` in `models.py`). -/
inductive Severity
  | Felony
  | Misdemeanor
  | Infraction
  | Unknown
deriving DecidableEq

/-- One criminal charge (`models.Charge`). -/
structure Charge where
  description : String
  severity : Severity
  statute : Option String
deriving DecidableEq

/-- An incident record (`models.Incident`). -/
structure Incident where
  report_id : String
  date : String
  subject_name : String
  narrative_summary : String
  charges : List Charge
  alcohol_involved : Bool
  location : Option String
deriving DecidableEq

/-- A legal citation attached to a decision (`models.Citation`). -/
structure Citation where
  guideline : String
  text : String
  source_paragraph : String
deriving DecidableEq

/-- The recommendation enum (`models.AdjudicationDecision.recommendation`). -/
inductive Recommendation
  | GRANT
  | DENY
  | REVOKE
  | MANUAL_REVIEW
deriving DecidableEq

/-- The decision object (`models.AdjudicationDecision`).  The Python model
also records a wall-clock creation timestamp, which no verified property
mentions; it is omitted. -/
structure AdjudicationDecision where
  recommendation : Recommendation
  risk_score : ℚ
  citations : List Citation
  generated_sor : String
deriving DecidableEq

/-! ## Guideline catalog and retrieval (`src/rag.py`) -/

/-- One catalog entry of `rag.SEAD4_GUIDELINES`. -/
structure Guideline where
  title : String
  concern : String
  disqualifying_conditions : List String
  mitigating_conditions : List String
  citation : String
deriving DecidableEq, Inhabited

/-- Catalog entry "G" of `rag.SEAD4_GUIDELINES`. -/
def guidelineG : Guideline :=
  { title := "Guideline G: Alcohol Consumption"
    concern := "Excessive alcohol consumption often leads to the exercise of questionable judgment or the failure to control impulses, and can raise questions about an individual's reliability and trustworthiness."
    disqualifying_conditions :=
      ["Alcohol-related incidents away from work, such as driving while under the influence",
       "Habitual or binge consumption of alcohol to the point of impaired judgment",
       "Diagnosis by a medical professional of alcohol use disorder"]
    mitigating_conditions :=
      ["So much time has passed since the incident that it is unlikely to recur",
       "The individual acknowledges the issue and has taken steps (e.g., counseling, AA)",
       "A favorable prognosis by a qualified medical professional"]
    citation := "SEAD 4, Adjudicative Guidelines, Paragraph 21" }

/-- Catalog entry "H" of `rag.SEAD4_GUIDELINES`. -/
def guidelineH : Guideline :=
  { title := "Guideline H: Drug Involvement and Substance Misuse"
    concern := "The illegal use of controlled substances can raise questions about an individual's ability or willingness to comply with laws, rules, and regulations."
    disqualifying_conditions :=
      ["Any drug abuse (use of illegal drugs or prescription drugs without authorization)",
       "Testing positive for illegal drug use",
       "Illegal drug possession, including cultivation, processing, or distribution"]
    mitigating_conditions :=
      ["The behavior happened so long ago or under such unusual circumstances that recurrence is unlikely",
       "A demonstrated intent not to abuse drugs in the future (e.g., signed statement)",
       "Satisfactory completion of a prescribed drug treatment program"]
    citation := "SEAD 4, Adjudicative Guidelines, Paragraph 24" }

/-- Catalog entry "D" of `rag.SEAD4_GUIDELINES`. -/
def guidelineD : Guideline :=
  { title := "Guideline D: Sexual Behavior"
    concern := "Sexual behavior that involves a criminal offense, reflects a lack of judgment, or may subject the individual to coercion or duress."
    disqualifying_conditions :=
      ["Sexual behavior of a criminal nature",
       "Sexual behavior that causes vulnerability to coercion, exploitation, or duress",
       "Sexual behavior of a public nature or that reflects lack of discretion or judgment"]
    mitigating_conditions :=
      ["The behavior occurred prior to or during adolescence and there is no evidence of subsequent conduct",
       "The behavior no longer serves as a basis for coercion, exploitation, or duress"]
    citation := "SEAD 4, Adjudicative Guidelines, Paragraph 12" }

/-- Catalog entry "J" of `rag.SEAD4_GUIDELINES`. -/
def guidelineJ : Guideline :=
  { title := "Guideline J: Criminal Conduct"
    concern := "Criminal activity creates doubt about a person's judgment, reliability, and trustworthiness. By its very nature, it calls into question a person's ability or willingness to comply with laws, rules, and regulations."
    disqualifying_conditions :=
      ["A single serious crime or multiple lesser offenses",
       "Discharge or dismissal from the Armed Forces under dishonorable conditions",
       "Allegation or admission of criminal conduct, regardless of whether the person was formally charged"]
    mitigating_conditions :=
      ["So much time has elapsed since the criminal behavior happened that it is unlikely to recur",
       "Evidence of successful rehabilitation (e.g., employment, community ties)",
       "Pressured or coerced into committing the act and those pressures are no longer present"]
    citation := "SEAD 4, Adjudicative Guidelines, Paragraph 30" }

/-- Catalog entry "E" of `rag.SEAD4_GUIDELINES`. -/
def guidelineE : Guideline :=
  { title := "Guideline E: Personal Conduct"
    concern := "Conduct involving questionable judgment, lack of candor, dishonesty, or unwillingness to comply with rules and regulations can raise questions about an individual's reliability, trustworthiness, and ability to protect classified or sensitive information."
    disqualifying_conditions :=
      ["Deliberate omission or falsification of relevant facts from any personnel security questionnaire",
       "Personal conduct that creates vulnerability to coercion, exploitation, or duress"]
    mitigating_conditions :=
      ["The individual made prompt, good-faith efforts to correct the omission before being confronted",
       "The offense is so minor, or so much time has passed, that it is unlikely to recur"]
    citation := "SEAD 4, Adjudicative Guidelines, Paragraph 15" }

/-- The catalog `rag.SEAD4_GUIDELINES`, an insertion-ordered mapping. -/
def SEAD4_GUIDELINES : List (String × Guideline) :=
  [("G", guidelineG), ("H", guidelineH), ("D", guidelineD),
   ("J", guidelineJ), ("E", guidelineE)]

/-- Python `str.lower()` (ASCII-relevant part). -/
def str_lower (s : String) : String := ⟨s.data.map Char.toLower⟩

/-- Python `str.upper()` (ASCII-relevant part). -/
def str_upper (s : String) : String := ⟨s.data.map Char.toUpper⟩

/-- Python substring containment `needle in hay`. -/
def strContains (hay needle : String) : Bool :=
  hay.data.tails.any (fun t => needle.data.isPrefixOf t)

/-- `rag.get_guideline`: direct lookup by guideline letter, case-insensitive. -/
def get_guideline (code : String) : Option Guideline :=
  SEAD4_GUIDELINES.lookup (str_upper code)

/-- `rag.search_guidelines`: keyword-based retrieval over the lower-cased
query, one block of keywords per guideline, results in catalog order. -/
def search_guidelines (query : String) : List (String × Guideline) :=
  let query_lower := str_lower query
  (if strContains query_lower "alcohol" || strContains query_lower "dui" ||
      strContains query_lower "drink" then [("G", guidelineG)] else []) ++
  (if strContains query_lower "drug" || strContains query_lower "substance" ||
      strContains query_lower "marijuana" then [("H", guidelineH)] else []) ++
  (if strContains query_lower "sexual" || strContains query_lower "harassment"
      then [("D", guidelineD)] else []) ++
  (if strContains query_lower "assault" || strContains query_lower "violence" ||
      strContains query_lower "criminal" then [("J", guidelineJ)] else []) ++
  (if strContains query_lower "dishonest" || strContains query_lower "falsif"
      then [("E", guidelineE)] else [])

/-- The per-guideline keyword lists of `rag.search_guidelines`, read off the
five keyword-matching conditions, keyed in catalog order.  Used to state the
retrieval contract as a filter of the catalog. -/
def guideline_keywords : List (String × List String) :=
  [("G", ["alcohol", "dui", "drink"]),
   ("H", ["drug", "substance", "marijuana"]),
   ("D", ["sexual", "harassment"]),
   ("J", ["assault", "violence", "criminal"]),
   ("E", ["dishonest", "falsif"])]

/-- Keyword list of one guideline code (empty off the catalog). -/
def keywords_of (code : String) : List String :=
  (guideline_keywords.lookup code).getD []

/-! ## Adjudication engine (`src/logic.py`) -/

/-- Whether any charge is a felony (`has_felony` in `adjudicate_case`). -/
def has_felony (inc : Incident) : Bool :=
  inc.charges.any (fun c => decide (c.severity = Severity.Felony))

/-- Risk added by Rule Set A (alcohol-related offenses). -/
def alcohol_risk (inc : Incident) : ℚ :=
  if inc.alcohol_involved then 2 else 0

/-- Risk added by Rule Set B (criminal charges severity): `3.0 if has_felony
else 2.0` when the rule fires, `0` otherwise. -/
def criminal_risk (inc : Incident) : ℚ :=
  if has_felony inc then 3 else if 1 < inc.charges.length then 2 else 0

/-- The accumulated `risk_score` of `adjudicate_case` before the final cap. -/
def raw_risk_score (inc : Incident) : ℚ :=
  alcohol_risk inc + criminal_risk inc

/-- Rule Set C of `logic.AdjudicationEngine.adjudicate_case`: the four
recommendation bands, evaluated in order, first match wins. -/
def recommendation_of (risk_score : ℚ) : Recommendation :=
  if risk_score ≥ 4 then .REVOKE
  else if risk_score ≥ 2 then .MANUAL_REVIEW
  else if risk_score > 0 then .DENY
  else .GRANT

/-- The terminal reasoning sentence appended by Rule Set C, per band. -/
def terminal_reasoning (risk_score : ℚ) : String :=
  if risk_score ≥ 4 then
    "Risk threshold exceeded. Immediate revocation recommended pending investigation."
  else if risk_score ≥ 2 then
    "Case requires Subject Interview per SOP-101 and adjudicator review."
  else if risk_score > 0 then
    "Derogatory information present. Clearance application denied."
  else "No disqualifying information found."

/-- Description of the first charge (`incident.charges[0].description`; only
evaluated when the charge list is non-empty). -/
def first_charge_description (inc : Incident) : String :=
  match inc.charges with
  | c :: _ => c.description
  | [] => ""

/-- The ordered reasoning sentences accumulated by `adjudicate_case`: the
alcohol-rule sentence, then the criminal-conduct sentence, then the terminal
band sentence. -/
def reasoning_parts (inc : Incident) : List String :=
  ((if inc.alcohol_involved then
      ["Alcohol involvement detected in incident dated " ++ inc.date ++ "."]
    else []) ++
   (if has_felony inc ∨ 1 < inc.charges.length then
      ["Subject faces " ++ toString inc.charges.length ++ " charge(s), including " ++
       first_charge_description inc ++ "."]
    else [])) ++
  [terminal_reasoning (raw_risk_score inc)]

/-- The ordered citations accumulated by `adjudicate_case`: Guideline G from
the alcohol rule, then Guideline J from the criminal-conduct rule, built from
`get_guideline` exactly as the source builds them. -/
def adjudicate_citations (inc : Incident) : List Citation :=
  let guideline_g := (get_guideline "G").getD default
  let guideline_j := (get_guideline "J").getD default
  (if inc.alcohol_involved then
    [{ guideline := "Guideline G"
       text := guideline_g.concern.take 150 ++ "..."
       source_paragraph := guideline_g.citation }]
   else []) ++
  (if has_felony inc ∨ 1 < inc.charges.length then
    [{ guideline := "Guideline J"
       text := guideline_j.concern.take 150 ++ "..."
       source_paragraph := guideline_j.citation }]
   else [])

/-- Numbered findings block of the Statement of Reasons (`enumerate` from 1). -/
def numbered_findings : Nat → List String → String
  | _, [] => ""
  | i, r :: rest => toString i ++ ". " ++ r ++ "\n" ++ numbered_findings (i + 1) rest

/-- Legal-basis bullet lines of the Statement of Reasons. -/
def citation_bullets : List Citation → String
  | [] => ""
  | c :: rest =>
    "• " ++ c.guideline ++ " (" ++ c.source_paragraph ++ ")\n" ++ citation_bullets rest

/-- `logic.AdjudicationEngine._generate_sor`: header, numbered findings,
legal basis (omitted when there is no citation), recommendation footer. -/
def generate_sor (inc : Incident) (reasoning : List String)
    (citations : List Citation) : String :=
  let header := "STATEMENT OF REASONS\n" ++ "Subject: " ++ inc.subject_name ++ "\n" ++
    "Incident Reference: " ++ inc.report_id ++ "\n" ++
    "Date of Incident: " ++ inc.date ++ "\n\n"
  let body := "FINDINGS:\n" ++ numbered_findings 1 reasoning ++
    (if citations.isEmpty then "" else "\nLEGAL BASIS:\n" ++ citation_bullets citations)
  let footer := "\nRECOMMENDATION:\n" ++
    "Based on the above findings, this case is classified for " ++ reasoning.getLastD ""
  header ++ body ++ footer

/-- `logic.AdjudicationEngine.adjudicate_case`: the deterministic rule engine.
The rules accumulate `raw_risk_score`; the decision carries the score capped
at `10`, the citations, and the rendered Statement of Reasons. -/
def adjudicate_case (inc : Incident) : AdjudicationDecision :=
  { recommendation := recommendation_of (raw_risk_score inc)
    risk_score := min (raw_risk_score inc) 10
    citations := adjudicate_citations inc
    generated_sor := generate_sor inc (reasoning_parts inc) (adjudicate_citations inc) }

/-! ## Standalone demo engine (`src/demo.py`)

The demo file re-implements the same rule sets with its own two-entry
catalog (same G and J text) and a decision logic that omits the DENY band:
`risk_score >= 4` gives REVOKE, `>= 2` gives MANUAL_REVIEW, anything else
GRANT.  Its scoring rules are textually identical to `logic.py`. -/

/-- Decision logic of `demo.AdjudicationEngine.adjudicate_case`: only three
bands, no DENY. -/
def demo_recommendation_of (risk_score : ℚ) : Recommendation :=
  if risk_score ≥ 4 then .REVOKE
  else if risk_score ≥ 2 then .MANUAL_REVIEW
  else .GRANT

/-- Terminal reasoning sentences of the demo engine's decision logic. -/
def demo_terminal_reasoning (risk_score : ℚ) : String :=
  if risk_score ≥ 4 then "Risk threshold exceeded. Immediate revocation recommended."
  else if risk_score ≥ 2 then
    "Case requires Subject Interview per SOP-101 and adjudicator review."
  else "No disqualifying information found."

/-- Reasoning sentences accumulated by the demo engine. -/
def demo_reasoning_parts (inc : Incident) : List String :=
  ((if inc.alcohol_involved then
      ["Alcohol involvement detected in incident dated " ++ inc.date ++ "."]
    else []) ++
   (if has_felony inc ∨ 1 < inc.charges.length then
      ["Subject faces " ++ toString inc.charges.length ++ " charge(s), including " ++
       first_charge_description inc ++ "."]
    else [])) ++
  [demo_terminal_reasoning (raw_risk_score inc)]

/-- Citations accumulated by the demo engine (its two-entry catalog holds the
same G and J concern and citation text as `rag.py`). -/
def demo_citations (inc : Incident) : List Citation :=
  (if inc.alcohol_involved then
    [{ guideline := "Guideline G"
       text := guidelineG.concern.take 150 ++ "..."
       source_paragraph := guidelineG.citation }]
   else []) ++
  (if has_felony inc ∨ 1 < inc.charges.length then
    [{ guideline := "Guideline J"
       text := guidelineJ.concern.take 150 ++ "..."
       source_paragraph := guidelineJ.citation }]
   else [])

/-- `demo.AdjudicationEngine._generate_sor`: same template as `logic.py`
except that the footer quotes the last reasoning sentence bare. -/
def demo_generate_sor (inc : Incident) (reasoning : List String)
    (citations : List Citation) : String :=
  let header := "STATEMENT OF REASONS\n" ++ "Subject: " ++ inc.subject_name ++ "\n" ++
    "Incident Reference: " ++ inc.report_id ++ "\n" ++
    "Date of Incident: " ++ inc.date ++ "\n\n"
  let body := "FINDINGS:\n" ++ numbered_findings 1 reasoning ++
    (if citations.isEmpty then "" else "\nLEGAL BASIS:\n" ++ citation_bullets citations)
  let footer := "\nRECOMMENDATION:\n" ++ reasoning.getLastD ""
  header ++ body ++ footer

/-- `demo.AdjudicationEngine.adjudicate_case`: the demo's two-band engine. -/
def demo_adjudicate_case (inc : Incident) : AdjudicationDecision :=
  { recommendation := demo_recommendation_of (raw_risk_score inc)
    risk_score := min (raw_risk_score inc) 10
    citations := demo_citations inc
    generated_sor := demo_generate_sor inc (demo_reasoning_parts inc) (demo_citations inc) }

/-! ## Anti-corruption layer (`src/acl.py`)

The clearance statuses are string literals in Python (`Literal[...]` in
`models.py`); they are modelled as one enum covering both the local and the
mainframe status alphabets.  Wall-clock timestamps (`datetime.now()`) are
modelled by the monotone counter `clock` of the ACL state; `last_sync` and
`last_batch_sync` store the counter value at which they were set. -/

/-- Clearance status values: the local statuses plus SYNCING, which only the
mainframe side may hold. -/
inductive ClearanceStatus
  | ACTIVE
  | SUSPENDED
  | REVOKED
  | PENDING
  | SYNCING
deriving DecidableEq

/-- The dual-state status object (`models.LegacyStatus`). -/
structure LegacyStatus where
  local_status : ClearanceStatus
  mainframe_status : ClearanceStatus
  last_sync : Option Nat
  sync_lag_hours : Nat
deriving DecidableEq

/-- The `status_map` table of `acl.publish_decision`.  The Python dictionary
lookup carries the default "PENDING", unreachable here because the
recommendation alphabet is closed. -/
def status_map : Recommendation → ClearanceStatus
  | .GRANT => .ACTIVE
  | .DENY => .PENDING
  | .REVOKE => .REVOKED
  | .MANUAL_REVIEW => .SUSPENDED

/-- One entry of the ACL's pending queue.  The `xml_payload` string built by
`_generate_soap_envelope` is write-only in the source (nothing later reads
it) and no verified property mentions it, so it is omitted. -/
structure PendingSyncItem where
  subject_id : String
  decision : AdjudicationDecision
  queued_at : Nat
deriving DecidableEq

/-- The mutable state of `acl.AntiCorruptionLayer` plus the modelled clock. -/
structure ACLState where
  sync_interval : Nat
  pending_queue : List PendingSyncItem
  status_cache : List (String × LegacyStatus)
  last_batch_sync : Option Nat
  clock : Nat
deriving DecidableEq

/-- `AntiCorruptionLayer.__init__` (the production default interval is 96). -/
def initACL (sync_interval_hours : Nat) : ACLState :=
  { sync_interval := sync_interval_hours
    pending_queue := []
    status_cache := []
    last_batch_sync := none
    clock := 0 }

/-- Dictionary lookup in the status cache (`subject_id in self.status_cache`,
`self.status_cache.get(...)`). -/
def cacheGet : List (String × LegacyStatus) → String → Option LegacyStatus
  | [], _ => none
  | (k, v) :: rest, sid => if k = sid then some v else cacheGet rest sid

/-- Dictionary assignment `self.status_cache[subject_id] = status`:
replace-or-add, extensionally equal to the Python update. -/
def cacheSet (cache : List (String × LegacyStatus)) (sid : String)
    (status : LegacyStatus) : List (String × LegacyStatus) :=
  (sid, status) :: cache.filter (fun p => p.1 != sid)

/-- `acl.AntiCorruptionLayer.publish_decision`: map the recommendation to a
local status, build the fresh dual-status object, overwrite the cache entry,
append one pending item. -/
def publish_decision (subject_id : String) (decision : AdjudicationDecision)
    (st : ACLState) : LegacyStatus × ACLState :=
  let status : LegacyStatus :=
    { local_status := status_map decision.recommendation
      mainframe_status := .ACTIVE
      last_sync := none
      sync_lag_hours := st.sync_interval }
  (status,
   { st with
     status_cache := cacheSet st.status_cache subject_id status
     pending_queue := st.pending_queue ++
       [{ subject_id := subject_id, decision := decision, queued_at := st.clock }]
     clock := st.clock + 1 })

/-- The three convergence assignments shared by `force_sync` and the batch
loop: mainframe status follows local, sync timestamp set, lag zeroed. -/
def converge_status (clock : Nat) (s : LegacyStatus) : LegacyStatus :=
  { local_status := s.local_status
    mainframe_status := s.local_status
    last_sync := some clock
    sync_lag_hours := 0 }

/-- `acl.AntiCorruptionLayer.force_sync`.  Python raises `ValueError` when
the subject has no cached status; the raise happens before any mutation, so
the failure is modelled as `none`. -/
def force_sync (subject_id : String) (st : ACLState) :
    Option (LegacyStatus × ACLState) :=
  match cacheGet st.status_cache subject_id with
  | none => none
  | some status =>
    let synced := converge_status st.clock status
    some (synced,
      { st with
        status_cache := cacheSet st.status_cache subject_id synced
        pending_queue := st.pending_queue.filter (fun item => item.subject_id != subject_id)
        last_batch_sync := some st.clock
        clock := st.clock + 1 })

/-- One iteration of the batch loop of `simulate_batch_processing`: converge
and count the item when its subject is still cached, skip it silently
otherwise. -/
def batch_step (clock : Nat) (acc : Nat × List (String × LegacyStatus))
    (item : PendingSyncItem) : Nat × List (String × LegacyStatus) :=
  match cacheGet acc.2 item.subject_id with
  | none => acc
  | some status =>
    (acc.1 + 1, cacheSet acc.2 item.subject_id (converge_status clock status))

/-- `acl.AntiCorruptionLayer.simulate_batch_processing`: iterate the queue
snapshot, converge cached subjects, clear the whole queue, stamp the batch
sync time; returns the processed count. -/
def simulate_batch_processing (st : ACLState) : Nat × ACLState :=
  let r := st.pending_queue.foldl (batch_step st.clock) (0, st.status_cache)
  (r.1,
   { st with
     status_cache := r.2
     pending_queue := []
     last_batch_sync := some st.clock
     clock := st.clock + 1 })

/-- `acl.AntiCorruptionLayer.get_status`: pure read of the cache. -/
def get_status (subject_id : String) (st : ACLState) : Option LegacyStatus :=
  cacheGet st.status_cache subject_id

/-- `acl.AntiCorruptionLayer.get_sync_queue_size`: pure read of the queue. -/
def get_sync_queue_size (st : ACLState) : Nat :=
  st.pending_queue.length

/-- One ACL operation, for stating invariants over operation sequences. -/
inductive ACLOp
  | publish (subject_id : String) (decision : AdjudicationDecision)
  | forceSync (subject_id : String)
  | runBatch
deriving DecidableEq

/-- State reached after one operation: a failed `force_sync` raises before
mutating, leaving the state unchanged. -/
def applyOp (st : ACLState) : ACLOp → ACLState
  | .publish sid d => (publish_decision sid d st).2
  | .forceSync sid =>
    match force_sync sid st with
    | none => st
    | some (_, st') => st'
  | .runBatch => (simulate_batch_processing st).2

/-- State reached after a sequence of operations. -/
def runOps (ops : List ACLOp) (st : ACLState) : ACLState :=
  ops.foldl applyOp st

/-- Shape of every cached status object: either converged (lag zero,
mainframe follows local, sync timestamp present) or freshly published (lag
equal to the configured interval, mainframe at the neutral default ACTIVE,
no sync timestamp). -/
def ACLStatusInv (interval : Nat) (s : LegacyStatus) : Prop :=
  (s.sync_lag_hours = 0 ∧ s.mainframe_status = s.local_status ∧ s.last_sync ≠ none) ∨
  (s.sync_lag_hours = interval ∧ s.mainframe_status = ClearanceStatus.ACTIVE ∧
   s.last_sync = none)

/-- Invariant of the ACL state: every cached status has one of the two shapes
above, and a subject with a queued item is still in the freshly published
shape (neutral mainframe default, no sync timestamp). -/
def ACLInv (st : ACLState) : Prop :=
  ∀ sid s, cacheGet st.status_cache sid = some s →
    ACLStatusInv st.sync_interval s ∧
    ((∃ i ∈ st.pending_queue, i.subject_id = sid) →
      s.mainframe_status = ClearanceStatus.ACTIVE ∧ s.last_sync = none)

/-! ## Concrete inputs used to instantiate the theorems -/

/-- The mock DUI incident of `ingest.simulate_vlm_extraction`: alcohol
involved, two misdemeanor charges. -/
def duiIncident : Incident :=
  { report_id := "LEA-2024-8892"
    date := "2024-05-12"
    subject_name := "John Doe"
    narrative_summary := "Subject observed weaving across lanes at 0145 hours."
    charges :=
      [{ description := "Driving Under Influence of Alcohol"
         severity := .Misdemeanor
         statute := some "VC 23152(a)" },
       { description := "Reckless Driving"
         severity := .Misdemeanor
         statute := some "VC 23103" }]
    alcohol_involved := true
    location := some "Interstate 95, Exit 42" }

/-- A decision whose recommendation is GRANT (so its mapped local status is
ACTIVE, the same value as the neutral mainframe default). -/
def grantDecision : AdjudicationDecision :=
  { recommendation := .GRANT
    risk_score := 0
    citations := []
    generated_sor := "" }

/-- A decision whose recommendation is REVOKE. -/
def revokeDecision : AdjudicationDecision :=
  { recommendation := .REVOKE
    risk_score := 5
    citations := []
    generated_sor := "" }

/-- Publish then force-sync one subject, from a freshly initialised ACL. -/
def sampleOps : List ACLOp :=
  [ACLOp.publish "SUBJ-1" grantDecision, ACLOp.forceSync "SUBJ-1"]

/-- The converged status reached by `sampleOps` (the sync happens at clock
tick 1). -/
def sampleSynced : LegacyStatus :=
  { local_status := .ACTIVE
    mainframe_status := .ACTIVE
    last_sync := some 1
    sync_lag_hours := 0 }

/-! ## Helper lemmas about the engine -/

/-- The accumulated risk score only ever takes one of five values: 0 (no rule
fires), 2 (alcohol alone or multiple non-felony charges alone), 3 (felony
alone), 4 (alcohol and multiple non-felony charges) or 5 (alcohol and a
felony). -/
lemma raw_risk_score_mem (inc : Incident) :
    raw_risk_score inc = 0 ∨ raw_risk_score inc = 2 ∨ raw_risk_score inc = 3 ∨
    raw_risk_score inc = 4 ∨ raw_risk_score inc = 5 := by
  unfold raw_risk_score alcohol_risk criminal_risk
  cases halc : inc.alcohol_involved <;> cases hfel : has_felony inc <;>
    by_cases hlen : 1 < inc.charges.length <;> simp [halc, hfel, hlen] <;> norm_num

/-- The cap at 10 never changes the accumulated score. -/
lemma risk_cap_noop (inc : Incident) :
    min (raw_risk_score inc) 10 = raw_risk_score inc := by
  rcases raw_risk_score_mem inc with h | h | h | h | h <;> rw [h] <;> norm_num

/-- The decision's score equals the accumulated score. -/
lemma risk_score_eq (inc : Incident) :
    (adjudicate_case inc).risk_score = raw_risk_score inc :=
  risk_cap_noop inc

/-- The decision's recommendation is the band function of the accumulated
score. -/
lemma recommendation_eq (inc : Incident) :
    (adjudicate_case inc).recommendation = recommendation_of (raw_risk_score inc) := rfl

/-- The terminal band sentence is the last reasoning entry. -/
lemma reasoning_parts_getLast (inc : Incident) :
    (reasoning_parts inc).getLast? = some (terminal_reasoning (raw_risk_score inc)) := by
  simp [reasoning_parts]

/-- Bool-level felony flag versus its specification. -/
lemma has_felony_iff (inc : Incident) :
    has_felony inc = true ↔ ∃ c ∈ inc.charges, c.severity = Severity.Felony := by
  simp [has_felony, List.any_eq_true]

/-- Demo engine and rule engine agree on the recommendation of every
incident: the accumulated score never falls strictly between 0 and 2, so the
missing DENY band never matters. -/
lemma demo_agree_aux (inc : Incident) :
    (demo_adjudicate_case inc).recommendation = (adjudicate_case inc).recommendation := by
  show demo_recommendation_of (raw_risk_score inc) = recommendation_of (raw_risk_score inc)
  rcases raw_risk_score_mem inc with h | h | h | h | h <;>
    rw [h] <;> norm_num [demo_recommendation_of, recommendation_of]

/-! ## Helper lemmas about the status cache -/

/-- Looking up the freshly written key returns the written value. -/
lemma cacheGet_cacheSet_self (cache : List (String × LegacyStatus)) (sid : String)
    (v : LegacyStatus) : cacheGet (cacheSet cache sid v) sid = some v := by
  simp [cacheGet, cacheSet]

/-- Removing one key's entries does not change any other key's lookup. -/
lemma cacheGet_filter_ne (cache : List (String × LegacyStatus)) (sid sid2 : String)
    (h : sid2 ≠ sid) :
    cacheGet (cache.filter (fun p => p.1 != sid)) sid2 = cacheGet cache sid2 := by
  induction cache with
  | nil => rfl
  | cons p rest ih =>
    rcases p with ⟨k, v⟩
    by_cases hk : k = sid
    · subst hk
      simp [List.filter_cons, cacheGet, Ne.symm h, ih]
    · simp only [List.filter_cons]
      simp [hk, cacheGet, ih]

/-- Writing one key does not change any other key's lookup. -/
lemma cacheGet_cacheSet_ne (cache : List (String × LegacyStatus)) (sid : String)
    (v : LegacyStatus) (sid2 : String) (h : sid2 ≠ sid) :
    cacheGet (cacheSet cache sid v) sid2 = cacheGet cache sid2 := by
  simp [cacheSet, cacheGet, Ne.symm h, cacheGet_filter_ne cache sid sid2 h]

/-- Writing a key that is already present preserves which lookups succeed. -/
lemma cacheGet_isSome_cacheSet (cache : List (String × LegacyStatus)) (sid : String)
    (s v : LegacyStatus) (hs : cacheGet cache sid = some s) (sid2 : String) :
    (cacheGet (cacheSet cache sid v) sid2).isSome = (cacheGet cache sid2).isSome := by
  by_cases h : sid2 = sid
  · subst h; rw [cacheGet_cacheSet_self, hs]; rfl
  · rw [cacheGet_cacheSet_ne cache sid v sid2 h]

/-! ## Helper lemmas about the batch loop -/

/-- Converging twice is converging once: the convergence keeps the local
status, which is all a second convergence reads. -/
lemma converge_status_idem (clock : Nat) (s : LegacyStatus) :
    converge_status clock (converge_status clock s) = converge_status clock s := rfl

/-- The batch loop counts exactly the queue items whose subject is cached:
processing converges entries in place but never adds or removes one, so
cache hits are stable across the loop. -/
lemma batch_fold_count (clock : Nat) (items : List PendingSyncItem) :
    ∀ (n : Nat) (cache : List (String × LegacyStatus)),
      (items.foldl (batch_step clock) (n, cache)).1 =
        n + (items.filter (fun i => (cacheGet cache i.subject_id).isSome)).length := by
  induction items with
  | nil => intro n cache; simp
  | cons i rest ih =>
    intro n cache
    rw [List.foldl_cons, List.filter_cons]
    cases h : cacheGet cache i.subject_id with
    | none =>
      rw [show batch_step clock (n, cache) i = (n, cache) by simp [batch_step, h]]
      simp [h, ih]
    | some s =>
      rw [show batch_step clock (n, cache) i =
            (n + 1, cacheSet cache i.subject_id (converge_status clock s)) by
          simp [batch_step, h]]
      rw [ih]
      have hcong :
          rest.filter (fun j =>
              (cacheGet (cacheSet cache i.subject_id (converge_status clock s))
                j.subject_id).isSome) =
            rest.filter (fun j => (cacheGet cache j.subject_id).isSome) :=
        List.filter_congr (fun j _ => by
          rw [cacheGet_isSome_cacheSet cache i.subject_id s (converge_status clock s) h])
      rw [hcong]
      simp [h]
      omega

/-- The batch loop leaves subjects with no queued item untouched. -/
lemma batch_fold_other (clock : Nat) (items : List PendingSyncItem) :
    ∀ (acc : Nat × List (String × LegacyStatus)) (sid : String),
      (∀ i ∈ items, i.subject_id ≠ sid) →
      cacheGet (items.foldl (batch_step clock) acc).2 sid = cacheGet acc.2 sid := by
  induction items with
  | nil => intro acc sid _; rfl
  | cons i rest ih =>
    intro acc sid hne
    rw [List.foldl_cons]
    have hisid : i.subject_id ≠ sid := hne i (List.mem_cons_self i rest)
    have hrest : ∀ j ∈ rest, j.subject_id ≠ sid := fun j hj =>
      hne j (List.mem_cons_of_mem i hj)
    rw [ih (batch_step clock acc i) sid hrest]
    cases h : cacheGet acc.2 i.subject_id with
    | none => simp [batch_step, h]
    | some s =>
      simp only [batch_step, h]
      exact cacheGet_cacheSet_ne acc.2 i.subject_id (converge_status clock s) sid
        (fun hx => hisid hx.symm)

/-- Every cached subject with a queued item ends the batch loop converged. -/
lemma batch_fold_converge (clock : Nat) (items : List PendingSyncItem) :
    ∀ (acc : Nat × List (String × LegacyStatus)) (sid : String) (s : LegacyStatus),
      cacheGet acc.2 sid = some s →
      (∃ i ∈ items, i.subject_id = sid) →
      cacheGet (items.foldl (batch_step clock) acc).2 sid =
        some (converge_status clock s) := by
  induction items with
  | nil => intro acc sid s _ hmem; simp at hmem
  | cons i rest ih =>
    intro acc sid s hs hmem
    rw [List.foldl_cons]
    by_cases hisid : i.subject_id = sid
    · rw [show batch_step clock acc i =
            (acc.1 + 1, cacheSet acc.2 sid (converge_status clock s)) by
          simp [batch_step, hisid, hs]]
      by_cases hrest : ∃ j ∈ rest, j.subject_id = sid
      · have := ih (acc.1 + 1, cacheSet acc.2 sid (converge_status clock s)) sid
          (converge_status clock s) (cacheGet_cacheSet_self _ _ _) hrest
        rwa [converge_status_idem] at this
      · push_neg at hrest
        rw [batch_fold_other clock rest _ sid hrest]
        exact cacheGet_cacheSet_self _ _ _
    · have hmem2 : ∃ j ∈ rest, j.subject_id = sid := by
        rcases hmem with ⟨j, hj, hjid⟩
        rcases List.mem_cons.mp hj with rfl | hj2
        · exact absurd hjid hisid
        · exact ⟨j, hj2, hjid⟩
      cases h : cacheGet acc.2 i.subject_id with
      | none =>
        rw [show batch_step clock acc i = acc by simp [batch_step, h]]
        exact ih acc sid s hs hmem2
      | some s2 =>
        refine ih _ sid s ?_ hmem2
        show cacheGet (batch_step clock acc i).2 sid = some s
        simp only [batch_step, h]
        rw [cacheGet_cacheSet_ne acc.2 i.subject_id (converge_status clock s2) sid
          (fun hx => hisid hx.symm)]
        exact hs

/-- Dichotomy for the batch loop: every lookup after the loop is either the
lookup before it, or the convergence of a value that was cached before it. -/
lemma batch_fold_lookup (clock : Nat) (items : List PendingSyncItem) :
    ∀ (acc : Nat × List (String × LegacyStatus)) (sid : String),
      cacheGet (items.foldl (batch_step clock) acc).2 sid = cacheGet acc.2 sid ∨
      ∃ s, cacheGet acc.2 sid = some s ∧
        cacheGet (items.foldl (batch_step clock) acc).2 sid =
          some (converge_status clock s) := by
  induction items with
  | nil => intro acc sid; exact Or.inl rfl
  | cons i rest ih =>
    intro acc sid
    rw [List.foldl_cons]
    cases h : cacheGet acc.2 i.subject_id with
    | none =>
      rw [show batch_step clock acc i = acc by simp [batch_step, h]]
      exact ih acc sid
    | some s2 =>
      rw [show batch_step clock acc i =
            (acc.1 + 1, cacheSet acc.2 i.subject_id (converge_status clock s2)) by
          simp [batch_step, h]]
      by_cases hsid : sid = i.subject_id
      · rcases ih (acc.1 + 1, cacheSet acc.2 i.subject_id (converge_status clock s2)) sid with
          hsame | ⟨s3, hs3, hconv⟩
        · refine Or.inr ⟨s2, by rw [hsid]; exact h, ?_⟩
          rw [hsame, hsid]
          exact cacheGet_cacheSet_self _ _ _
        · refine Or.inr ⟨s2, by rw [hsid]; exact h, ?_⟩
          have hs3e : s3 = converge_status clock s2 := by
            rw [hsid, cacheGet_cacheSet_self] at hs3
            exact (Option.some.inj hs3).symm
          rw [hconv, hs3e, converge_status_idem]
      · rcases ih (acc.1 + 1, cacheSet acc.2 i.subject_id (converge_status clock s2)) sid with
          hsame | ⟨s3, hs3, hconv⟩
        · rw [hsame]
          exact Or.inl (cacheGet_cacheSet_ne acc.2 i.subject_id (converge_status clock s2)
            sid hsid)
        · rw [cacheGet_cacheSet_ne acc.2 i.subject_id (converge_status clock s2)
            sid hsid] at hs3
          exact Or.inr ⟨s3, hs3, hconv⟩

/-! ## Helper lemmas for sequences of ACL operations -/

/-- The configured sync interval never changes. -/
lemma sync_interval_applyOp (st : ACLState) (op : ACLOp) :
    (applyOp st op).sync_interval = st.sync_interval := by
  cases op with
  | publish sid d => rfl
  | forceSync sid =>
    simp only [applyOp, force_sync]
    cases cacheGet st.status_cache sid <;> rfl
  | runBatch => rfl

/-- The configured sync interval never changes over a sequence. -/
lemma sync_interval_runOps (ops : List ACLOp) :
    ∀ st : ACLState, (runOps ops st).sync_interval = st.sync_interval := by
  induction ops with
  | nil => intro st; rfl
  | cons op rest ih =>
    intro st
    show (runOps rest (applyOp st op)).sync_interval = st.sync_interval
    rw [ih (applyOp st op), sync_interval_applyOp]

/-- The freshly initialised ACL satisfies the invariant (empty cache). -/
lemma ACLInv_init (n : Nat) : ACLInv (initACL n) := by
  intro sid s h
  simp [initACL, cacheGet] at h

/-- Publishing preserves the invariant: the overwritten entry is in the
freshly published shape and its queued item points at that shape. -/
lemma ACLInv_publish (st : ACLState) (sid : String) (d : AdjudicationDecision)
    (h : ACLInv st) : ACLInv (applyOp st (.publish sid d)) := by
  intro sid2 s2 hs2
  have hq : (applyOp st (.publish sid d)).pending_queue =
      st.pending_queue ++ [{ subject_id := sid, decision := d, queued_at := st.clock }] := rfl
  have hsi : (applyOp st (.publish sid d)).sync_interval = st.sync_interval := rfl
  by_cases hid : sid2 = sid
  · have hfresh : cacheGet (applyOp st (.publish sid d)).status_cache sid2 =
        some { local_status := status_map d.recommendation
               mainframe_status := .ACTIVE
               last_sync := none
               sync_lag_hours := st.sync_interval } := by
      rw [hid]; exact cacheGet_cacheSet_self _ _ _
    rw [hs2] at hfresh
    have hs2e := Option.some.inj hfresh
    constructor
    · rw [hsi, hs2e]
      exact Or.inr ⟨rfl, rfl, rfl⟩
    · intro _
      rw [hs2e]
      exact ⟨rfl, rfl⟩
  · have hsame : cacheGet (applyOp st (.publish sid d)).status_cache sid2 =
        cacheGet st.status_cache sid2 :=
      cacheGet_cacheSet_ne _ _ _ _ hid
    rw [hs2] at hsame
    rcases h sid2 s2 hsame.symm with ⟨hstat, hqd⟩
    constructor
    · rw [hsi]; exact hstat
    · rintro ⟨i, hi, hisub⟩
      rw [hq] at hi
      rcases List.mem_append.mp hi with hi1 | hi2
      · exact hqd ⟨i, hi1, hisub⟩
      · simp at hi2
        rw [hi2] at hisub
        exact absurd hisub.symm hid

/-- Forced sync preserves the invariant: the synced entry takes the converged
shape and all its queue entries disappear. -/
lemma ACLInv_forceSync (st : ACLState) (sid : String)
    (h : ACLInv st) : ACLInv (applyOp st (.forceSync sid)) := by
  cases hc : cacheGet st.status_cache sid with
  | none =>
    simp only [applyOp, force_sync, hc]
    exact h
  | some status =>
    simp only [applyOp, force_sync, hc]
    intro sid2 s2 hs2
    by_cases hid : sid2 = sid
    · have hconv : cacheGet (cacheSet st.status_cache sid (converge_status st.clock status))
          sid2 = some (converge_status st.clock status) := by
        rw [hid]; exact cacheGet_cacheSet_self _ _ _
      rw [hs2] at hconv
      have hs2e := Option.some.inj hconv
      constructor
      · rw [hs2e]
        exact Or.inl ⟨rfl, rfl, by simp [converge_status]⟩
      · rintro ⟨i, hi, hisub⟩
        have := (List.mem_filter.mp hi).2
        rw [hisub, hid] at this
        simp at this
    · have hsame : cacheGet (cacheSet st.status_cache sid (converge_status st.clock status))
          sid2 = cacheGet st.status_cache sid2 :=
        cacheGet_cacheSet_ne _ _ _ _ hid
      rw [hs2] at hsame
      rcases h sid2 s2 hsame.symm with ⟨hstat, hqd⟩
      refine ⟨hstat, ?_⟩
      rintro ⟨i, hi, hisub⟩
      exact hqd ⟨i, (List.mem_filter.mp hi).1, hisub⟩

/-- A batch run preserves the invariant: every touched entry takes the
converged shape and the queue is emptied. -/
lemma ACLInv_runBatch (st : ACLState) (h : ACLInv st) :
    ACLInv (applyOp st .runBatch) := by
  intro sid s2 hs2
  constructor
  · have hlk := batch_fold_lookup st.clock st.pending_queue (0, st.status_cache) sid
    rcases hlk with hsame | ⟨s0, hs0, hconv⟩
    · have hold : cacheGet st.status_cache sid = some s2 := by
        rw [← hsame]; exact hs2
      have := (h sid s2 hold).1
      rwa [show (applyOp st .runBatch).sync_interval = st.sync_interval from rfl]
    · have hs2e : s2 = converge_status st.clock s0 := by
        have hx : cacheGet (applyOp st .runBatch).status_cache sid =
            some (converge_status st.clock s0) := hconv
        rw [hs2] at hx
        exact Option.some.inj hx
      rw [hs2e]
      exact Or.inl ⟨rfl, rfl, by simp [converge_status]⟩
  · rintro ⟨i, hi, _⟩
    simp only [applyOp, simulate_batch_processing] at hi
    simp at hi

/-- Every state reached from a state satisfying the invariant still satisfies
it. -/
lemma ACLInv_runOps (ops : List ACLOp) :
    ∀ st : ACLState, ACLInv st → ACLInv (runOps ops st) := by
  induction ops with
  | nil => intro st h; exact h
  | cons op rest ih =>
    intro st h
    show ACLInv (runOps rest (applyOp st op))
    refine ih (applyOp st op) ?_
    cases op with
    | publish sid d => exact ACLInv_publish st sid d h
    | forceSync sid => exact ACLInv_forceSync st sid h
    | runBatch => exact ACLInv_runBatch st h

/-- Publishing keeps every queued subject cached (it caches the subject it
enqueues and removes nothing). -/
lemma publish_queue_cached (st : ACLState) (sid : String) (d : AdjudicationDecision)
    (hall : ∀ i ∈ st.pending_queue, (cacheGet st.status_cache i.subject_id).isSome = true) :
    ∀ i ∈ (applyOp st (.publish sid d)).pending_queue,
      (cacheGet (applyOp st (.publish sid d)).status_cache i.subject_id).isSome = true := by
  intro i hi
  have hcache : (applyOp st (.publish sid d)).status_cache =
      cacheSet st.status_cache sid
        { local_status := status_map d.recommendation
          mainframe_status := .ACTIVE
          last_sync := none
          sync_lag_hours := st.sync_interval } := rfl
  rw [hcache]
  by_cases hid : i.subject_id = sid
  · rw [hid, cacheGet_cacheSet_self]
    rfl
  · rw [cacheGet_cacheSet_ne _ _ _ _ hid]
    have hq : (applyOp st (.publish sid d)).pending_queue =
        st.pending_queue ++ [{ subject_id := sid, decision := d, queued_at := st.clock }] := rfl
    rw [hq] at hi
    rcases List.mem_append.mp hi with hi1 | hi2
    · exact hall i hi1
    · simp at hi2
      rw [hi2] at hid
      exact absurd rfl hid

/-- A run of publishes keeps every queued subject cached and grows the queue
by one item per publish. -/
lemma publishes_fold (ps : List (String × AdjudicationDecision)) :
    ∀ st : ACLState,
      (∀ i ∈ st.pending_queue, (cacheGet st.status_cache i.subject_id).isSome = true) →
      (∀ i ∈ (runOps (ps.map fun p => ACLOp.publish p.1 p.2) st).pending_queue,
        (cacheGet (runOps (ps.map fun p => ACLOp.publish p.1 p.2) st).status_cache
          i.subject_id).isSome = true) ∧
      (runOps (ps.map fun p => ACLOp.publish p.1 p.2) st).pending_queue.length =
        st.pending_queue.length + ps.length := by
  induction ps with
  | nil => intro st h; exact ⟨h, rfl⟩
  | cons p rest ih =>
    intro st h
    have hstep : runOps ((p :: rest).map fun p => ACLOp.publish p.1 p.2) st =
        runOps (rest.map fun p => ACLOp.publish p.1 p.2) (applyOp st (.publish p.1 p.2)) := rfl
    rw [hstep]
    rcases ih (applyOp st (.publish p.1 p.2)) (publish_queue_cached st p.1 p.2 h) with ⟨hc, hl⟩
    refine ⟨hc, ?_⟩
    rw [hl]
    have hlen : (applyOp st (.publish p.1 p.2)).pending_queue.length =
        st.pending_queue.length + 1 := by
      show (st.pending_queue ++ [_]).length = _
      simp
    rw [hlen]
    simp
    omega

/-- When every queued subject is cached, the batch count is the full queue
length. -/
lemma batch_count_all (st : ACLState)
    (hall : ∀ i ∈ st.pending_queue, (cacheGet st.status_cache i.subject_id).isSome = true) :
    (simulate_batch_processing st).1 = st.pending_queue.length := by
  have h2 : (simulate_batch_processing st).1 =
      (st.pending_queue.foldl (batch_step st.clock) (0, st.status_cache)).1 := rfl
  rw [h2, batch_fold_count st.clock st.pending_queue 0 st.status_cache,
    List.filter_eq_self.mpr hall]
  omega

/-! ## Claim theorems -/

/-- C1: for every incident the recommendation is determined from the final
risk score by the four bands, evaluated in order with first match winning
(at least 4 REVOKE, in [2, 4) MANUAL_REVIEW, in (0, 2) DENY, 0 GRANT), and
the matching band's terminal reasoning sentence is the last reasoning
entry. -/
theorem adjudication_band_thresholds (inc : Incident) :
    ((adjudicate_case inc).risk_score ≥ 4 →
      (adjudicate_case inc).recommendation = Recommendation.REVOKE ∧
      (reasoning_parts inc).getLast? =
        some "Risk threshold exceeded. Immediate revocation recommended pending investigation.") ∧
    (2 ≤ (adjudicate_case inc).risk_score ∧ (adjudicate_case inc).risk_score < 4 →
      (adjudicate_case inc).recommendation = Recommendation.MANUAL_REVIEW ∧
      (reasoning_parts inc).getLast? =
        some "Case requires Subject Interview per SOP-101 and adjudicator review.") ∧
    (0 < (adjudicate_case inc).risk_score ∧ (adjudicate_case inc).risk_score < 2 →
      (adjudicate_case inc).recommendation = Recommendation.DENY ∧
      (reasoning_parts inc).getLast? =
        some "Derogatory information present. Clearance application denied.") ∧
    ((adjudicate_case inc).risk_score = 0 →
      (adjudicate_case inc).recommendation = Recommendation.GRANT ∧
      (reasoning_parts inc).getLast? = some "No disqualifying information found.") := by
  have hs := risk_score_eq inc
  have hl := reasoning_parts_getLast inc
  have hr := recommendation_eq inc
  rcases raw_risk_score_mem inc with h | h | h | h | h <;>
    rw [h] at hs hl hr <;> rw [hs, hr, hl] <;>
    refine ⟨fun hb => ?_, fun hb => ?_, fun hb => ?_, fun hb => ?_⟩ <;>
    norm_num [recommendation_of, terminal_reasoning] at hb ⊢

/-- C2: the decision's risk score is the alcohol contribution (2 when
alcohol is involved) plus the criminal-conduct contribution (3 when some
charge is a felony, else 2 when there is more than one charge, else 0),
clamped at 10; in particular a single felony charge with no alcohol scores
exactly 3. -/
theorem risk_score_formula (inc : Incident) :
    ((adjudicate_case inc).risk_score =
      min ((if inc.alcohol_involved then (2 : ℚ) else 0) +
           (if ∃ c ∈ inc.charges, c.severity = Severity.Felony then (3 : ℚ)
            else if 1 < inc.charges.length then (2 : ℚ) else 0)) 10) ∧
    (∀ c : Charge, c.severity = Severity.Felony → inc.alcohol_involved = false →
      inc.charges = [c] → (adjudicate_case inc).risk_score = 3) := by
  constructor
  · have hcrim : criminal_risk inc =
        (if ∃ c ∈ inc.charges, c.severity = Severity.Felony then (3 : ℚ)
         else if 1 < inc.charges.length then (2 : ℚ) else 0) := by
      unfold criminal_risk
      by_cases hf : has_felony inc = true
      · rw [if_pos hf, if_pos ((has_felony_iff inc).mp hf)]
      · rw [if_neg hf, if_neg fun hx => hf ((has_felony_iff inc).mpr hx)]
    show min (raw_risk_score inc) 10 = _
    rw [show raw_risk_score inc = alcohol_risk inc + criminal_risk inc from rfl, hcrim]
    rfl
  · intro c hc halc hch
    rw [risk_score_eq]
    unfold raw_risk_score alcohol_risk criminal_risk has_felony
    rw [halc, hch]
    simp [hc]

/-- C9: an incident with alcohol involved and exactly two misdemeanor
charges cites Guideline G then Guideline J in that order, scores 4.0 and is
recommended REVOKE. -/
theorem dui_example_decision (inc : Incident) (halc : inc.alcohol_involved = true)
    (c1 c2 : Charge) (hch : inc.charges = [c1, c2])
    (h1 : c1.severity = Severity.Misdemeanor) (h2 : c2.severity = Severity.Misdemeanor) :
    (adjudicate_case inc).citations.map Citation.guideline =
      ["Guideline G", "Guideline J"] ∧
    (adjudicate_case inc).risk_score = 4 ∧
    (adjudicate_case inc).recommendation = Recommendation.REVOKE := by
  have hf : has_felony inc = false := by
    simp [has_felony, hch, h1, h2]
  have hraw : raw_risk_score inc = 4 := by
    unfold raw_risk_score alcohol_risk criminal_risk
    rw [halc, hf, hch]
    norm_num
  refine ⟨?_, ?_, ?_⟩
  · show (adjudicate_citations inc).map Citation.guideline = _
    simp [adjudicate_citations, halc, hf, hch]
  · rw [risk_score_eq, hraw]
  · rw [recommendation_eq, hraw]
    norm_num [recommendation_of]

/-- Witness for C9: the mock DUI incident (alcohol, two misdemeanors). -/
theorem dui_example_decision_witness :
    (adjudicate_case duiIncident).citations.map Citation.guideline =
      ["Guideline G", "Guideline J"] ∧
    (adjudicate_case duiIncident).risk_score = 4 ∧
    (adjudicate_case duiIncident).recommendation = Recommendation.REVOKE :=
  dui_example_decision duiIncident rfl _ _ rfl rfl rfl

/-- C10: the accumulated risk score is always one of 0, 2, 3, 4, 5; hence
the final score never falls strictly between 0 and 2 (the DENY band is
unreachable), the recommendation is never DENY, and the cap at 10 never
changes the score. -/
theorem risk_score_value_lattice (inc : Incident) :
    (raw_risk_score inc = 0 ∨ raw_risk_score inc = 2 ∨ raw_risk_score inc = 3 ∨
     raw_risk_score inc = 4 ∨ raw_risk_score inc = 5) ∧
    ¬(0 < (adjudicate_case inc).risk_score ∧ (adjudicate_case inc).risk_score < 2) ∧
    (adjudicate_case inc).recommendation ≠ Recommendation.DENY ∧
    min (raw_risk_score inc) 10 = raw_risk_score inc := by
  refine ⟨raw_risk_score_mem inc, ?_, ?_, risk_cap_noop inc⟩
  · rw [risk_score_eq]
    rcases raw_risk_score_mem inc with h | h | h | h | h <;> rw [h] <;> norm_num
  · rw [recommendation_eq]
    rcases raw_risk_score_mem inc with h | h | h | h | h <;> rw [h] <;>
      norm_num [recommendation_of] <;> decide

/-- C4 (amended): the two rule sets do diverge as band functions — at a risk
score of 1 the four-band engine answers DENY where the two-band demo engine
answers GRANT — but no incident realises a score in (0, 2), so the two
engines return the same recommendation for every incident. -/
theorem engines_agree_on_recommendations :
    (recommendation_of 1 = Recommendation.DENY ∧
     demo_recommendation_of 1 = Recommendation.GRANT) ∧
    ∀ inc : Incident,
      (demo_adjudicate_case inc).recommendation = (adjudicate_case inc).recommendation :=
  ⟨⟨by norm_num [recommendation_of], by norm_num [demo_recommendation_of]⟩,
   demo_agree_aux⟩

/-- Counterexample for C4 as stated: there is no incident on which the
four-band engine of `logic.py` and the two-band engine of `demo.py` return
different recommendations. -/
theorem no_incident_separates_engines :
    (∃ inc : Incident,
      (demo_adjudicate_case inc).recommendation ≠ (adjudicate_case inc).recommendation)
      = False := by
  apply eq_false
  rintro ⟨inc, hne⟩
  exact hne (demo_agree_aux inc)

/-- Filtering a cons is the filtered head segment followed by the filtered
tail. -/
lemma filter_cons_append {α : Type} (p : α → Bool) (a : α) (l : List α) :
    (a :: l).filter p = (if p a then [a] else []) ++ l.filter p := by
  by_cases h : p a = true <;> simp [List.filter_cons, h]

/-- C8 (amended): search lower-cases the query and returns exactly the
catalog entries, in catalog iteration order and at most once each, whose
keyword list has a member occurring as a substring of the lower-cased query;
the keyword list of guideline G is {alcohol, dui, drink}, and G is included
whenever one of those three occurs. -/
theorem search_guidelines_keyword_contract (q : String) :
    search_guidelines q =
      SEAD4_GUIDELINES.filter
        (fun p => (keywords_of p.1).any (fun kw => strContains (str_lower q) kw)) ∧
    ((search_guidelines q).map Prod.fst).Nodup ∧
    ((strContains (str_lower q) "alcohol" = true ∨ strContains (str_lower q) "dui" = true ∨
      strContains (str_lower q) "drink" = true) →
      ("G", guidelineG) ∈ search_guidelines q) := by
  have kwG : keywords_of "G" = ["alcohol", "dui", "drink"] := rfl
  have kwH : keywords_of "H" = ["drug", "substance", "marijuana"] := rfl
  have kwD : keywords_of "D" = ["sexual", "harassment"] := rfl
  have kwJ : keywords_of "J" = ["assault", "violence", "criminal"] := rfl
  have kwE : keywords_of "E" = ["dishonest", "falsif"] := rfl
  have heq : search_guidelines q =
      SEAD4_GUIDELINES.filter
        (fun p => (keywords_of p.1).any (fun kw => strContains (str_lower q) kw)) := by
    simp only [search_guidelines, SEAD4_GUIDELINES, filter_cons_append, List.filter_nil,
      List.append_nil, kwG, kwH, kwD, kwJ, kwE, List.any_cons, List.any_nil,
      Bool.or_false, Bool.or_assoc, List.append_assoc]
  refine ⟨heq, ?_, ?_⟩
  · rw [heq]
    exact List.Nodup.sublist
      (List.Sublist.map Prod.fst (List.filter_sublist SEAD4_GUIDELINES)) (by decide)
  · rintro (h | h | h) <;> simp [search_guidelines, h]

/-- Counterexample for C8 as stated: a query containing "dwi" and
"intoxicated" (but none of the actual keywords alcohol, dui, drink) returns
no guideline at all — the source's keyword list for G does not contain "dwi"
or "intoxicated". -/
theorem search_misses_dwi_and_intoxicated :
    strContains (str_lower "DWI, intoxicated driver") "dwi" = true ∧
    strContains (str_lower "DWI, intoxicated driver") "intoxicated" = true ∧
    (search_guidelines "DWI, intoxicated driver").map Prod.fst = [] :=
  ⟨rfl, rfl, rfl⟩

/-- C6: publish always succeeds and returns a status whose local side is the
recommendation mapped through the fixed table, whose mainframe side is the
neutral ACTIVE, with no sync timestamp and a lag of the configured interval;
it overwrites only that subject's cache entry and appends exactly one item
to the queue. -/
theorem publish_contract (sid : String) (d : AdjudicationDecision) (st : ACLState) :
    (publish_decision sid d st).1.local_status =
      (match d.recommendation with
       | .GRANT => ClearanceStatus.ACTIVE
       | .DENY => ClearanceStatus.PENDING
       | .REVOKE => ClearanceStatus.REVOKED
       | .MANUAL_REVIEW => ClearanceStatus.SUSPENDED) ∧
    (publish_decision sid d st).1.mainframe_status = ClearanceStatus.ACTIVE ∧
    (publish_decision sid d st).1.last_sync = none ∧
    (publish_decision sid d st).1.sync_lag_hours = st.sync_interval ∧
    cacheGet (publish_decision sid d st).2.status_cache sid =
      some (publish_decision sid d st).1 ∧
    (∀ sid2, sid2 ≠ sid →
      cacheGet (publish_decision sid d st).2.status_cache sid2 =
        cacheGet st.status_cache sid2) ∧
    (publish_decision sid d st).2.pending_queue =
      st.pending_queue ++ [{ subject_id := sid, decision := d, queued_at := st.clock }] := by
  refine ⟨?_, rfl, rfl, rfl, ?_, ?_, rfl⟩
  · show status_map d.recommendation = _
    cases d.recommendation <;> rfl
  · exact cacheGet_cacheSet_self _ _ _
  · intro sid2 h
    exact cacheGet_cacheSet_ne _ _ _ _ h

/-- C5: forceSync fails exactly when the subject has no cached status, and
the failure leaves the state unchanged; on success it converges that
subject's status (mainframe follows local, timestamp set, lag zeroed),
overwrites only that cache entry, removes every queue entry of that subject
(all duplicates), and stamps the batch-sync time. -/
theorem force_sync_contract (sid : String) (st : ACLState) :
    (force_sync sid st = none ↔ cacheGet st.status_cache sid = none) ∧
    (cacheGet st.status_cache sid = none → applyOp st (ACLOp.forceSync sid) = st) ∧
    (∀ s, cacheGet st.status_cache sid = some s →
      ∃ st2, force_sync sid st = some (converge_status st.clock s, st2) ∧
        (converge_status st.clock s).mainframe_status = s.local_status ∧
        (converge_status st.clock s).local_status = s.local_status ∧
        (converge_status st.clock s).last_sync = some st.clock ∧
        (converge_status st.clock s).sync_lag_hours = 0 ∧
        cacheGet st2.status_cache sid = some (converge_status st.clock s) ∧
        (∀ sid2, sid2 ≠ sid →
          cacheGet st2.status_cache sid2 = cacheGet st.status_cache sid2) ∧
        st2.pending_queue = st.pending_queue.filter (fun i => i.subject_id != sid) ∧
        (∀ i ∈ st2.pending_queue, i.subject_id ≠ sid) ∧
        st2.last_batch_sync = some st.clock) := by
  refine ⟨?_, ?_, ?_⟩
  · constructor
    · intro h
      cases hc : cacheGet st.status_cache sid with
      | none => rfl
      | some s => simp [force_sync, hc] at h
    · intro h
      simp [force_sync, h]
  · intro h
    simp [applyOp, force_sync, h]
  · intro s hs
    refine ⟨{ st with
        status_cache := cacheSet st.status_cache sid (converge_status st.clock s)
        pending_queue := st.pending_queue.filter (fun i => i.subject_id != sid)
        last_batch_sync := some st.clock
        clock := st.clock + 1 }, ?_, rfl, rfl, rfl, rfl, ?_, ?_, rfl, ?_, rfl⟩
    · simp [force_sync, hs]
    · exact cacheGet_cacheSet_self _ _ _
    · intro sid2 h2
      exact cacheGet_cacheSet_ne _ _ _ _ h2
    · intro i hi
      have := (List.mem_filter.mp hi).2
      simpa using this

/-- C7: runBatch returns the number of queue items whose subject is still
cached, converges each such subject's status, silently leaves uncached
subjects absent, and unconditionally clears the queue; consequently, after N
publishes for N distinct subjects starting from an empty queue, it processes
N items and leaves the queue empty. -/
theorem run_batch_contract (st : ACLState) :
    (simulate_batch_processing st).1 =
      (st.pending_queue.filter
        (fun i => (cacheGet st.status_cache i.subject_id).isSome)).length ∧
    (simulate_batch_processing st).2.pending_queue = [] ∧
    (∀ sid s, cacheGet st.status_cache sid = some s →
      (∃ i ∈ st.pending_queue, i.subject_id = sid) →
      cacheGet (simulate_batch_processing st).2.status_cache sid =
        some (converge_status st.clock s)) ∧
    (∀ sid, cacheGet st.status_cache sid = none →
      cacheGet (simulate_batch_processing st).2.status_cache sid = none) ∧
    (∀ ps : List (String × AdjudicationDecision),
      (ps.map Prod.fst).Nodup → st.pending_queue = [] →
      (simulate_batch_processing
        (runOps (ps.map fun p => ACLOp.publish p.1 p.2) st)).1 = ps.length ∧
      get_sync_queue_size
        (simulate_batch_processing
          (runOps (ps.map fun p => ACLOp.publish p.1 p.2) st)).2 = 0) := by
  refine ⟨?_, rfl, ?_, ?_, ?_⟩
  · have h2 : (simulate_batch_processing st).1 =
        (st.pending_queue.foldl (batch_step st.clock) (0, st.status_cache)).1 := rfl
    rw [h2, batch_fold_count st.clock st.pending_queue 0 st.status_cache]
    omega
  · intro sid s hs hmem
    exact batch_fold_converge st.clock st.pending_queue (0, st.status_cache) sid s hs hmem
  · intro sid hnone
    rcases batch_fold_lookup st.clock st.pending_queue (0, st.status_cache) sid with
      hsame | ⟨s0, hs0, _⟩
    · rw [show cacheGet (simulate_batch_processing st).2.status_cache sid =
          cacheGet (st.pending_queue.foldl (batch_step st.clock) (0, st.status_cache)).2 sid
          from rfl, hsame]
      exact hnone
    · rw [hnone] at hs0
      exact absurd hs0 (by simp)
  · intro ps _ hq
    have hbase : ∀ i ∈ st.pending_queue, (cacheGet st.status_cache i.subject_id).isSome = true := by
      rw [hq]; intro i hi; simp at hi
    rcases publishes_fold ps st hbase with ⟨hcached, hlen⟩
    constructor
    · rw [batch_count_all _ hcached, hlen, hq]
      simp
    · rfl

/-- C3 (amended): after any sequence of ACL operations from a freshly
initialised ACL with the production interval of 96 hours, every cached
status satisfies: the lag is zero exactly when the mainframe status equals
the local status and the sync timestamp is set; and while the subject has a
queued item, the mainframe status is the neutral default ACTIVE with no sync
timestamp — which coincides with the newly pending local status exactly when
that status is itself ACTIVE (GRANT decisions). -/
theorem dual_state_sync_invariant (ops : List ACLOp) (sid : String)
    (status : LegacyStatus)
    (h : cacheGet (runOps ops (initACL 96)).status_cache sid = some status) :
    (status.sync_lag_hours = 0 ↔
      status.mainframe_status = status.local_status ∧ status.last_sync ≠ none) ∧
    ((∃ i ∈ (runOps ops (initACL 96)).pending_queue, i.subject_id = sid) →
      status.mainframe_status = ClearanceStatus.ACTIVE ∧ status.last_sync = none) := by
  rcases ACLInv_runOps ops (initACL 96) (ACLInv_init 96) sid status h with ⟨hstat, hq⟩
  refine ⟨?_, hq⟩
  rw [sync_interval_runOps ops (initACL 96)] at hstat
  rcases hstat with ⟨h0, hm, hl⟩ | ⟨h96, _, hl⟩
  · exact ⟨fun _ => ⟨hm, hl⟩, fun _ => h0⟩
  · constructor
    · intro h0
      rw [h96] at h0
      exact absurd h0 (by norm_num [initACL])
    · intro hrhs
      exact absurd hl hrhs.2

/-- Witness for C3 (amended): publish then force-sync one subject; its
cached status is converged and nothing is queued. -/
theorem dual_state_sync_invariant_witness :
    (sampleSynced.sync_lag_hours = 0 ↔
      sampleSynced.mainframe_status = sampleSynced.local_status ∧
      sampleSynced.last_sync ≠ none) ∧
    ((∃ i ∈ (runOps sampleOps (initACL 96)).pending_queue, i.subject_id = "SUBJ-1") →
      sampleSynced.mainframe_status = ClearanceStatus.ACTIVE ∧
      sampleSynced.last_sync = none) :=
  dual_state_sync_invariant sampleOps "SUBJ-1" sampleSynced (by decide)

/-- Counterexample for C3 as stated: publishing a GRANT decision leaves the
subject queued with a cached status whose mainframe side (ACTIVE, the
neutral default) is exactly the newly pending local status (also ACTIVE) —
so "never the newly pending local_status" fails. -/
theorem queued_mainframe_matches_pending_local :
    cacheGet (runOps [ACLOp.publish "SUBJ-1" grantDecision] (initACL 96)).status_cache
        "SUBJ-1" =
      some { local_status := ClearanceStatus.ACTIVE
             mainframe_status := ClearanceStatus.ACTIVE
             last_sync := none
             sync_lag_hours := 96 } ∧
    (runOps [ACLOp.publish "SUBJ-1" grantDecision] (initACL 96)).pending_queue.map
        PendingSyncItem.subject_id = ["SUBJ-1"] :=
  ⟨rfl, rfl⟩

end ClearanceOS
